import Mathlib

/-
Shallow embedding of the poly-market-maker keeper (Python) for verification of
spec.md against the code under src/poly_market_maker/.

Conventions:
 - Remote calls are modelled by passing the call outcome in as a value of
   VenueCallResult: either the returned value or the exception the call raised.
 - Python floats that only flow through arithmetic are modelled as rationals.
 - Functions that can raise return Except; total Python functions are plain defs.
-/

/-- The two outcome tokens of a binary market (token_class.Token; token_class.py
is not under src/, but the enum is fully determined by its uses in app.py and
market.py: exactly the two members A and B). -/
inductive Token where
  | A
  | B
deriving DecidableEq

/-- Assets keyed in the balance mapping built by App.get_balances: the collateral
token, or one of the two conditional outcome tokens. -/
inductive Asset where
  | Collateral
  | Conditional (t : Token)
deriving DecidableEq

/-- Outcome of a call into the remote venue client: the value it returned, or the
exception it raised (the Python client surfaces transport/API errors as
exceptions). -/
inductive VenueCallResult (α : Type) where
  | ok (v : α)
  | exn (msg : String)
deriving DecidableEq

/-- constants.OK (constants.py is not under src/): the sentinel value the code
compares venue responses against. -/
def OK : String := "OK"

/- ===================== C1: shutdown ===================== -/

/-- Events observable during keeper shutdown: log lines, stopping the background
refresher, and calls that go out to the remote venue. -/
inductive ShutdownEv where
  | logMsg (s : String)
  | stopRefresher
  | venueCancelAll
  | venueOtherCall (s : String)
deriving DecidableEq

/-- ClobApi.cancel_all_orders (clob_api.py 229-248): a single guarded
client.cancel_all() call; the boolean result is computed from the response but
the venue traffic is exactly one cancel-all request, whatever the response. -/
def ClobApi.cancel_all_orders_trace : List ShutdownEv :=
  [ShutdownEv.venueCancelAll]

/-- Modelled from the spec: OrderBookManager.cancel_all_orders — orderbook.py is
not under src/. Spec 4.4 shutdown: "stops the Refresher, then issues a single
cancel-all call to the Remote Venue Client to flatten all resting orders, then
releases resources." App wires the cancel-all collaborator to
ClobApi.cancel_all_orders (app.py 70-72), so the single venue call is the one
that function issues. -/
def OrderBookManager.cancel_all_orders_trace : List ShutdownEv :=
  ShutdownEv.stopRefresher :: ClobApi.cancel_all_orders_trace

/-- App.shutdown (app.py 114-120): a log line, one call to
order_book_manager.cancel_all_orders(), a log line, then return. -/
def App.shutdown_trace : List ShutdownEv :=
  (ShutdownEv.logMsg "Keeper shutting down..." :: OrderBookManager.cancel_all_orders_trace)
    ++ [ShutdownEv.logMsg "Keeper is shut down!"]

/-- The venue calls among a list of shutdown events. -/
def venueCallsOf (evs : List ShutdownEv) : List ShutdownEv :=
  evs.filter fun e =>
    match e with
    | ShutdownEv.venueCancelAll => true
    | ShutdownEv.venueOtherCall _ => true
    | _ => false

/- ===================== C2: get_orders ===================== -/

/-- Fields of an order dict returned by the venue that ClobApi._get_order reads
(clob_api.py 414-429). original_size, size_matched and price arrive as strings
and are coerced with float(); asset_id is coerced with int(); the numeric values
are modelled directly. -/
structure RawOrder where
  original_size : ℚ
  size_matched : ℚ
  price : ℚ
  side : String
  asset_id : Int
  id : String
deriving DecidableEq

/-- The keeper-side order dict ClobApi._get_order builds. -/
structure ParsedOrder where
  size : ℚ
  price : ℚ
  side : String
  token_id : Int
  id : String
deriving DecidableEq

/-- ClobApi._get_order (clob_api.py 414-429). -/
def ClobApi.get_order_dict (o : RawOrder) : ParsedOrder :=
  { size := o.original_size - o.size_matched
  , price := o.price
  , side := o.side
  , token_id := o.asset_id
  , id := o.id }

/-- ClobApi.get_orders (clob_api.py 148-168): on a successful venue call, maps
_get_order over the response; on ANY exception, logs the error and falls through
to return the empty list. (In the module as written the call itself always
raises NameError, because FilterParams is never imported; that too is an
Exception and lands in the same handler.) -/
def ClobApi.get_orders (call : VenueCallResult (List RawOrder)) : List ParsedOrder :=
  match call with
  | VenueCallResult.ok orders => orders.map ClobApi.get_order_dict
  | VenueCallResult.exn _ => []

/- ===================== C3: cancel_order ===================== -/

/-- ClobApi.cancel_order (clob_api.py 204-227): a None order id returns True
without calling the venue; otherwise the call result is compared against OK;
every exception is caught and the function returns False. Total: it never raises
to its caller. -/
def ClobApi.cancel_order (order_id : Option String)
    (call : VenueCallResult String) : Bool :=
  match order_id with
  | none => true
  | some _ =>
    match call with
    | VenueCallResult.ok resp => resp == OK
    | VenueCallResult.exn _ => false

/- ===================== C4: client initialization ===================== -/

/-- Outcome of the connectivity probe clob_client.get_ok() inside the try block
of _init_client_L1/_init_client_L2: it returned OK, returned something else, or
raised. -/
inductive ConnCheck where
  | okResp
  | nonOk (status : String)
  | raisesExn (msg : String)
deriving DecidableEq

/-- How _init_client_L1/_init_client_L2 ends: returning the connected client,
terminating the process via sys.exit(1), or falling off the end of the function
and returning None. -/
inductive InitOutcome where
  | clientReady
  | exitsProcess
  | returnsNone
deriving DecidableEq

/-- ClobApi._init_client_L1 (clob_api.py 373-394): inside try, if get_ok() == OK
the client is returned; an exception reaches the except branch, which logs and
sys.exit(1)s; a non-OK return makes the if false, control falls out of the try
and the function returns None. -/
def ClobApi.init_client_L1 (check : ConnCheck) : InitOutcome :=
  match check with
  | ConnCheck.okResp => InitOutcome.clientReady
  | ConnCheck.nonOk _ => InitOutcome.returnsNone
  | ConnCheck.raisesExn _ => InitOutcome.exitsProcess

/-- ClobApi._init_client_L2 (clob_api.py 396-412): same control flow with a bare
except clause. -/
def ClobApi.init_client_L2 (check : ConnCheck) : InitOutcome :=
  match check with
  | ConnCheck.okResp => InitOutcome.clientReady
  | ConnCheck.nonOk _ => InitOutcome.returnsNone
  | ConnCheck.raisesExn _ => InitOutcome.exitsProcess

/- ===================== C5: place_order ===================== -/

/-- Fields of the create_and_post_order response that place_order reads. success
models the truthiness of resp.get("success"); orderID is the raw value of
resp.get("orderID") (absent, or a possibly empty string). -/
structure PlaceResp where
  success : Bool
  orderID : Option String
  errorMsg : Option String
deriving DecidableEq

/-- Python truthiness of resp.get("orderID"): present and non-empty. -/
def truthyOpt : Option String → Bool
  | none => false
  | some s => !(s == "")

/-- ClobApi.place_order (clob_api.py 170-202): the whole body sits inside
try/except. The order id is returned only when resp is truthy, resp.get with key
success is truthy and resp.get with key orderID is truthy; the error branch logs
and falls through to return None (when resp is None, resp.get raises inside the
try and the except also returns None); any exception from the venue call returns
None. Total: never raises to its caller. -/
def ClobApi.place_order (call : VenueCallResult (Option PlaceResp)) : Option String :=
  match call with
  | VenueCallResult.exn _ => none
  | VenueCallResult.ok none => none
  | VenueCallResult.ok (some r) =>
    if r.success && truthyOpt r.orderID then r.orderID else none

/- ===================== C6: get_balances ===================== -/

/-- The four on-chain reads App.get_balances performs through the Contracts
collaborator (the blockchain client is excluded from the core per spec section 1;
its readings are inputs here). -/
structure ChainReads where
  collateral_balance : ℚ
  token_A_balance : ℚ
  token_B_balance : ℚ
  gas_balance : ℚ
deriving DecidableEq

/-- App.get_balances (app.py 126-200): builds and returns current_balance, the
dict with exactly the keys Collateral, Token.A and Token.B mapped to the three
token-balance reads. The gas balance feeds only a metrics gauge, and the PnL
block is wrapped in try/except and does not touch the returned mapping. -/
def App.get_balances (r : ChainReads) : List (Asset × ℚ) :=
  [ (Asset.Collateral, r.collateral_balance)
  , (Asset.Conditional Token.A, r.token_A_balance)
  , (Asset.Conditional Token.B, r.token_B_balance) ]

/- ===================== C7: get_price_history ===================== -/

/-- ClobApi.get_price_history (clob_api.py 103-123): the request parameters sent
to the prices-history endpoint are exactly market=token_id and interval=max; the
startTs/endTs parameters are commented out in the source line. -/
def ClobApi.get_price_history_params (token_id : Int) : List (String × String) :=
  [("market", toString token_id), ("interval", "max")]

/- ===================== C8: scoring tuple arity ===================== -/

/-- One price level of the order book response. -/
structure BookLevel where
  price : ℚ
  size : ℚ
deriving DecidableEq

/-- The bids/asks lists of the order book response used by get_token_score. -/
structure OrderBookData where
  bids : List BookLevel
  asks : List BookLevel
deriving DecidableEq

/-- A Python float as the scoring code uses it: a finite value or float(inf). -/
inductive ScoreVal where
  | num (q : ℚ)
  | infinity
deriving DecidableEq

/-- Sum of the sizes of the first five levels (the [:5] slices in scoring.py). -/
def top5size (levels : List BookLevel) : ℚ :=
  ((levels.take 5).map BookLevel.size).sum

/-- get_token_score (scoring.py 8-60): a missing or one-sided book returns the
4-tuple (explanation, 0, inf, 0) where explanation is 0, 1 or 2; otherwise it
returns the 4-tuple (spread, depth, volatility, price). The tuple is modelled as
the list of its components. The volatility value is a numpy float computation
over the price history; only its value flows into the tuple, so it is an
input. -/
def get_token_score (book : Option OrderBookData) (volatility : ScoreVal) :
    List ScoreVal :=
  match book with
  | none => [ScoreVal.num 0, ScoreVal.num 0, ScoreVal.infinity, ScoreVal.num 0]
  | some ob =>
    match ob.bids, ob.asks with
    | [], _ => [ScoreVal.num 1, ScoreVal.num 0, ScoreVal.infinity, ScoreVal.num 0]
    | _ :: _, [] => [ScoreVal.num 2, ScoreVal.num 0, ScoreVal.infinity, ScoreVal.num 0]
    | b :: bs, a :: as2 =>
      [ ScoreVal.num (a.price - b.price)
      , ScoreVal.num (top5size (b :: bs) + top5size (a :: as2))
      , volatility
      , ScoreVal.num ((b.price + a.price) / 2) ]

/-- CPython assignment unpacking of a sequence into exactly three targets: any
longer sequence raises ValueError (too many values), any shorter one raises
ValueError (not enough values). -/
def unpack3 (xs : List ScoreVal) : Except String (ScoreVal × ScoreVal × ScoreVal) :=
  match xs with
  | [a, b, c] => Except.ok (a, b, c)
  | xs =>
    if xs.length < 3 then Except.error "ValueError: not enough values to unpack"
    else Except.error "ValueError: too many values to unpack"

/-- One entry of the all_tokens list in main_loop, with the inputs its scoring
call depends on. -/
structure ScoredToken where
  token_id : String
  book : Option OrderBookData
  volatility : ScoreVal

/-- The per-token scoring pass of main_loop (market_loop.py 103-114): tokens with
a falsy id are skipped by the guard; otherwise the result of get_token_score is
unpacked into the three variables spread_score, depth_score, volatility_score; a
raise aborts the whole pass. -/
def scoringPass : List ScoredToken → Except String Unit
  | [] => Except.ok ()
  | t :: rest =>
    if t.token_id == "" then scoringPass rest
    else
      match unpack3 (get_token_score t.book t.volatility) with
      | Except.error e => Except.error e
      | Except.ok _ => scoringPass rest

/- ===================== C9: cleanup file rewrite ===================== -/

/-- Mode of an open Python file handle. -/
inductive OpenMode where
  | readOnly
  | writeOnly
deriving DecidableEq

/-- An open Python text file handle. -/
structure PyFileHandle where
  mode : OpenMode
  data : String
deriving DecidableEq

/-- Python open(path, mode w): truncates the file on disk to empty and yields a
write-only handle. Returns the handle together with the new on-disk content. -/
def openWrite (_disk : String) : PyFileHandle × String :=
  (PyFileHandle.mk OpenMode.writeOnly "", "")

/-- Reading from a handle: a write-only handle raises io.UnsupportedOperation. -/
def handleRead (h : PyFileHandle) : Except String String :=
  match h.mode with
  | OpenMode.writeOnly => Except.error "io.UnsupportedOperation: not readable"
  | OpenMode.readOnly => Except.ok h.data

/-- json.load(f): reads the whole handle, then parses the text; the parser is a
parameter (nothing in the failing path depends on it). -/
def jsonLoadWith (parse : String → Except String (List String)) (h : PyFileHandle) :
    Except String (List String) :=
  (handleRead h).bind parse

/-- json.dump of a list of strings. -/
def jsonDumpList (ids : List String) : String :=
  "[" ++ String.intercalate ", " (ids.map (fun s => "\"" ++ s ++ "\"")) ++ "]"

/-- The market-file rewrite in the cleanup task of main_loop (market_loop.py
240-250), modelling its effect on MARKET_FILE: when keys_to_delete is non-empty
the code opens MARKET_FILE in mode w (truncating it on disk) and immediately
calls json.load on that write-only handle. Returns the final on-disk content and
the outcome of the block. -/
def cleanupRewrite (parse : String → Except String (List String))
    (disk : String) (keys_to_delete : List String) : String × Except String Unit :=
  match keys_to_delete with
  | [] => (disk, Except.ok ())
  | _ :: _ =>
    let hd := openWrite disk
    match jsonLoadWith parse hd.fst with
    | Except.error e => (hd.snd, Except.error e)
    | Except.ok current_markets =>
      let new_markets := current_markets.filter fun cid =>
        !(keys_to_delete.contains cid)
      (jsonDumpList new_markets, Except.ok ())

/- ===================== C10: Market token round trip ===================== -/

/-- A JSON scalar as stored in the token-id file: Python int or str. -/
inductive PyVal where
  | intVal (n : Int)
  | strVal (s : String)
deriving DecidableEq

/-- Python == between an int and a str is False; between two values of the same
type it is value equality. -/
def pyEq : PyVal → PyVal → Bool
  | PyVal.intVal m, PyVal.intVal n => m == n
  | PyVal.strVal a, PyVal.strVal b => a == b
  | _, _ => false

/-- Decimal digit parser: the accumulator semantics of reading a digit string
left to right; fails on any non-digit character. -/
def parseDigits : List Char → Nat → Option Nat
  | [], acc => some acc
  | c :: cs, acc =>
    if c.isDigit then parseDigits cs (acc * 10 + (c.toNat - 48)) else none

/-- Python int(s) on a string: an optional leading minus sign followed by at
least one decimal digit; anything else raises ValueError. -/
def pyStrToInt (s : String) : Option Int :=
  match s.data with
  | [] => none
  | '-' :: cs =>
    match cs with
    | [] => none
    | _ :: _ => (parseDigits cs 0).map fun n => -(n : Int)
  | cs => (parseDigits cs 0).map fun n => (n : Int)

/-- Python int(x): identity on an int; parses a decimal string, raising
ValueError on a malformed one. -/
def pyToInt : PyVal → Except String Int
  | PyVal.intVal n => Except.ok n
  | PyVal.strVal s =>
    match pyStrToInt s with
    | some n => Except.ok n
    | none => Except.error "ValueError: invalid literal for int"

/-- CTHelpers.get_token_ids (ct_helpers.py 8-12): json.load the TOKEN_ID_FILE
mapping and return token_ids.get(condition_id). The parsed file content is an
input. -/
def CTHelpers.get_token_ids (file : List (String × List PyVal))
    (condition_id : String) : Option (List PyVal) :=
  file.lookup condition_id

/-- The Market object (market.py 7-22): the condition id and the token_ids dict
built in __init__. -/
structure Market where
  condition_id : String
  token_ids : Token → Option PyVal

/-- Market.__init__ (market.py 8-22): token_ids maps Token.A to the first file
entry and Token.B to the second, or Python None when the list is missing or too
short (the truthiness and length guards in the source). -/
def Market.init (file : List (String × List PyVal)) (condition_id : String) :
    Market :=
  { condition_id := condition_id
  , token_ids := fun t =>
      match CTHelpers.get_token_ids file condition_id with
      | none => none
      | some l =>
        match t with
        | Token.A => l.head?
        | Token.B => l.get? 1 }

/-- Comparison done inside Market.token: Python token_id == stored value, where
the stored value may be Python None (int == None is False). -/
def pyEqStored (x : Int) : Option PyVal → Bool
  | none => false
  | some v => pyEq (PyVal.intVal x) v

/-- Market.token_id (market.py 27-29): int(token_id) if the stored id is not
None, else None. -/
def Market.token_id (m : Market) (t : Token) : Except String (Option Int) :=
  match m.token_ids t with
  | none => Except.ok none
  | some v => (pyToInt v).map some

/-- Market.token (market.py 31-37): None maps to None; otherwise the id is
compared with Python == against the stored value for Token.A first, then
Token.B; if neither matches, ValueError is raised. -/
def Market.token (m : Market) (tid : Option Int) : Except String (Option Token) :=
  match tid with
  | none => Except.ok none
  | some x =>
    if pyEqStored x (m.token_ids Token.A) then Except.ok (some Token.A)
    else if pyEqStored x (m.token_ids Token.B) then Except.ok (some Token.B)
    else Except.error "ValueError: Unrecognized token ID"

/-- The round trip market.token(market.token_id(t)). -/
def Market.roundTrip (m : Market) (t : Token) : Except String (Option Token) :=
  (m.token_id t).bind m.token

/- ===================== Theorems ===================== -/

/-- Claim C1: when shutdown() is invoked, after the background refresher is
stopped the keeper issues exactly one cancel-all call to the Remote Venue
Client; no other venue calls occur anywhere in shutdown, and shutdown returns
after that call completes (the cancel-all is the last venue event of the
trace). -/
theorem shutdown_single_cancel_all :
    ∃ pre post,
      App.shutdown_trace = pre ++ ShutdownEv.stopRefresher :: post
        ∧ venueCallsOf pre = []
        ∧ venueCallsOf post = [ShutdownEv.venueCancelAll]
        ∧ venueCallsOf App.shutdown_trace = [ShutdownEv.venueCancelAll] := by
  refine ⟨[ShutdownEv.logMsg "Keeper shutting down..."],
    [ShutdownEv.venueCancelAll, ShutdownEv.logMsg "Keeper is shut down!"],
    rfl, rfl, rfl, rfl⟩

/-- Claim C2 counterexample: a venue call that raises a transport error makes
get_orders return the very value a successful fetch of an empty order book
returns, so the failure neither propagates to the caller nor is distinguishable
from an empty book. -/
theorem get_orders_error_indistinguishable :
    ClobApi.get_orders (VenueCallResult.exn "requests.ConnectionError") =
      ClobApi.get_orders (VenueCallResult.ok []) := rfl

/-- Claim C2 (amended): for every invocation in which the underlying venue call
raises, get_orders catches the exception, logs it, and returns the empty list —
the same value as a successful fetch of an empty order book, so a failed fetch
is treated as no live orders rather than as a skipped cycle. -/
theorem get_orders_swallows_errors (msg : String) :
    ClobApi.get_orders (VenueCallResult.exn msg) = []
      ∧ ClobApi.get_orders (VenueCallResult.exn msg)
          = ClobApi.get_orders (VenueCallResult.ok []) :=
  ⟨rfl, rfl⟩

/-- Claim C3 counterexample: a remote cancel call that reports the order is
already gone — whether the client surfaces that report as an exception or as a
non-OK response value — makes cancel_order return failure, not success. -/
theorem cancel_order_already_gone_is_failure :
    ClobApi.cancel_order (some "0xabc")
        (VenueCallResult.exn "PolyApiException: order already canceled") = false
      ∧ ClobApi.cancel_order (some "0xabc")
          (VenueCallResult.ok "order already canceled") = false := by
  exact ⟨rfl, by decide⟩

/-- Claim C3 (amended): cancel_order never raises to its caller and returns only
success or failure: success exactly when the order id is None (skipped without a
venue call) or the remote response equals OK; every other response and every
exception, an already-gone report included, returns failure. -/
theorem cancel_order_success_iff (order_id : Option String)
    (call : VenueCallResult String) :
    ClobApi.cancel_order order_id call = true ↔
      (order_id = none ∨ call = VenueCallResult.ok OK) := by
  cases order_id <;> cases call <;>
    simp [ClobApi.cancel_order]

/-- Claim C4: evaluation of the code at the failing input. A connectivity check
that raises does exit the process, but a check that returns a non-OK status
makes both _init_client_L1 and _init_client_L2 fall through and return None
instead of exiting: with L2 the ClobApi constructor then completes with
client = None, so initialization proceeds with an unusable client. -/
theorem init_client_non_ok_does_not_exit :
    ClobApi.init_client_L1 (ConnCheck.raisesExn "cannot reach venue")
        = InitOutcome.exitsProcess
      ∧ ClobApi.init_client_L2 (ConnCheck.raisesExn "cannot reach venue")
          = InitOutcome.exitsProcess
      ∧ ClobApi.init_client_L1 (ConnCheck.nonOk "FAIL") = InitOutcome.returnsNone
      ∧ ClobApi.init_client_L2 (ConnCheck.nonOk "FAIL") = InitOutcome.returnsNone
      ∧ InitOutcome.returnsNone ≠ InitOutcome.exitsProcess :=
  ⟨rfl, rfl, rfl, rfl, by decide⟩

/-- Claim C5: a venue-assigned order id is returned exactly when the venue
response is a present (truthy) dict whose success field is truthy and whose
orderID field is a truthy (non-empty) string, and the id returned is that
orderID; in every other case — error response, falsy fields, or exception —
place_order returns None, and being a total function it never raises to its
caller. -/
theorem place_order_id_iff_success (call : VenueCallResult (Option PlaceResp)) :
    (∃ s, ClobApi.place_order call = some s) ↔
      (∃ r s, call = VenueCallResult.ok (some r) ∧ r.success = true
        ∧ r.orderID = some s ∧ ¬(s = "")
        ∧ ClobApi.place_order call = some s) := by
  rcases call with v | msg
  · rcases v with _ | r
    · simp [ClobApi.place_order]
    · rcases r with ⟨succ, oid, emsg⟩
      rcases succ with _ | _
      · simp [ClobApi.place_order]
      · rcases oid with _ | s
        · simp [ClobApi.place_order, truthyOpt]
        · by_cases hs : s = "" <;>
            simp [ClobApi.place_order, truthyOpt, hs]
  · simp [ClobApi.place_order]

/-- Claim C6: the mapping returned by App.get_balances has exactly the three
asset keys Collateral, Token.A and Token.B, in that order, each bound to the
corresponding on-chain balance read, and no other key. -/
theorem get_balances_exact_keys (r : ChainReads) :
    (App.get_balances r).map Prod.fst
        = [Asset.Collateral, Asset.Conditional Token.A, Asset.Conditional Token.B]
      ∧ (App.get_balances r).lookup Asset.Collateral = some r.collateral_balance
      ∧ (App.get_balances r).lookup (Asset.Conditional Token.A)
          = some r.token_A_balance
      ∧ (App.get_balances r).lookup (Asset.Conditional Token.B)
          = some r.token_B_balance := by
  refine ⟨rfl, ?_, ?_, ?_⟩ <;> rfl

/-- Claim C7: for every token id the price-history request carries the unbounded
interval=max window and no startTs/endTs parameter, and the window parameters
are identical across tokens and calls (everything except the market id is the
same for any two token ids). -/
theorem price_history_window_is_max (t1 t2 : Int) :
    (ClobApi.get_price_history_params t1).lookup "interval" = some "max"
      ∧ (ClobApi.get_price_history_params t1).lookup "startTs" = none
      ∧ (ClobApi.get_price_history_params t1).lookup "endTs" = none
      ∧ (ClobApi.get_price_history_params t1).filter (fun p => !(p.fst == "market"))
          = (ClobApi.get_price_history_params t2).filter
              (fun p => !(p.fst == "market")) := by
  refine ⟨rfl, rfl, rfl, rfl⟩

/-- Helper for C8: both return statements of get_token_score produce a tuple of
four components. -/
lemma get_token_score_length (book : Option OrderBookData) (v : ScoreVal) :
    (get_token_score book v).length = 4 := by
  rcases book with _ | ob
  · rfl
  · rcases ob with ⟨bids, asks⟩
    rcases bids with _ | ⟨b, bs⟩ <;> rcases asks with _ | ⟨a, as2⟩ <;> rfl

/-- Helper for C8: unpacking any get_token_score result into three targets
raises ValueError. -/
lemma unpack3_get_token_score (book : Option OrderBookData) (v : ScoreVal) :
    unpack3 (get_token_score book v)
      = Except.error "ValueError: too many values to unpack" := by
  rcases book with _ | ob
  · rfl
  · rcases ob with ⟨bids, asks⟩
    rcases bids with _ | ⟨b, bs⟩ <;> rcases asks with _ | ⟨a, as2⟩ <;> rfl

/-- Claim C8: get_token_score always returns a 4-tuple, while the scoring step
of main_loop unpacks its result into exactly three variables; hence for every
token list containing at least one token with a truthy id, the scoring pass
raises ValueError at the first such token and never completes. -/
theorem scoring_pass_always_raises (tokens : List ScoredToken)
    (h : ∃ t ∈ tokens, ¬(t.token_id = "")) :
    (∀ book v, (get_token_score book v).length = 4)
      ∧ scoringPass tokens
          = Except.error "ValueError: too many values to unpack" := by
  refine ⟨fun book v => get_token_score_length book v, ?_⟩
  induction tokens with
  | nil => simp at h
  | cons t rest ih =>
    by_cases hid : t.token_id = ""
    · rcases h with ⟨u, hu, hne⟩
      rcases List.mem_cons.mp hu with rfl | hu2
      · exact absurd hid hne
      · have hrest := ih ⟨u, hu2, hne⟩
        simpa [scoringPass, hid] using hrest
    · simp [scoringPass, hid, unpack3_get_token_score]

/-- Claim C8 witness: a concrete singleton token list with a truthy id on which
the scoring pass raises. -/
theorem scoring_pass_always_raises_witness :
    (∃ t ∈ [ScoredToken.mk "115110" none ScoreVal.infinity], ¬(t.token_id = ""))
      ∧ ((∀ book v, (get_token_score book v).length = 4)
        ∧ scoringPass [ScoredToken.mk "115110" none ScoreVal.infinity]
            = Except.error "ValueError: too many values to unpack") :=
  ⟨⟨ScoredToken.mk "115110" none ScoreVal.infinity, by simp, by decide⟩,
    scoring_pass_always_raises _
      ⟨ScoredToken.mk "115110" none ScoreVal.infinity, by simp, by decide⟩⟩

/-- Claim C9: whenever get_to_delete returns a non-empty set of condition ids,
the cleanup branch opens the market file in write mode (truncating it on disk)
and then calls json.load on that write-only handle, which raises
io.UnsupportedOperation for every prior file content and every parser; the
branch therefore never rewrites the market file successfully and leaves it
truncated (on-disk content empty). -/
theorem cleanup_rewrite_always_fails (parse : String → Except String (List String))
    (disk k : String) (ks : List String) :
    cleanupRewrite parse disk (k :: ks)
      = ("", Except.error "io.UnsupportedOperation: not readable") := rfl

/-- Claim C10 counterexample: a market whose token-id file entry stores the two
ids as strings (as the scoring loop writes them): token_id coerces the stored
string to an int, but token compares that int against the stored strings with
Python equality, which is false for both tokens, so the round trip raises
ValueError instead of returning Token.A. -/
theorem token_round_trip_fails_on_string_ids :
    Market.roundTrip
        (Market.init [("c1", [PyVal.strVal "7", PyVal.strVal "8"])] "c1") Token.A
      = Except.error "ValueError: Unrecognized token ID" := by
  rfl

/-- Claim C10 (amended): the round trip market.token(market.token_id(t)) returns
t for both tokens when the token-id file stores the two ids as ints and the two
ids are distinct; a string-stored id is coerced to int by token_id but never
compares equal to the stored string inside token, which then raises
ValueError. -/
theorem token_round_trip_int_ids (cid : String) (nA nB : Int) (h : ¬(nA = nB)) :
    Market.roundTrip (Market.init [(cid, [PyVal.intVal nA, PyVal.intVal nB])] cid)
        Token.A = Except.ok (some Token.A)
      ∧ Market.roundTrip
          (Market.init [(cid, [PyVal.intVal nA, PyVal.intVal nB])] cid) Token.B
        = Except.ok (some Token.B) := by
  have hub : (nB == nA) = false := by
    simp only [beq_eq_false_iff_ne, ne_eq]
    exact fun hgg => h hgg.symm
  constructor
  · simp [Market.roundTrip, Market.init, Market.token_id, Market.token,
      CTHelpers.get_token_ids, pyEqStored, pyEq, pyToInt, List.lookup,
      Except.bind, Except.map]
  · simp [Market.roundTrip, Market.init, Market.token_id, Market.token,
      CTHelpers.get_token_ids, pyEqStored, pyEq, pyToInt, List.lookup,
      Except.bind, Except.map, hub]

/-- Claim C10 witness: the amended round trip at the concrete market c1 with int
ids 1 and 2. -/
theorem token_round_trip_int_ids_witness :
    ¬((1 : Int) = 2)
      ∧ (Market.roundTrip
            (Market.init [("c1", [PyVal.intVal 1, PyVal.intVal 2])] "c1") Token.A
          = Except.ok (some Token.A)
        ∧ Market.roundTrip
            (Market.init [("c1", [PyVal.intVal 1, PyVal.intVal 2])] "c1") Token.B
          = Except.ok (some Token.B)) :=
  ⟨by decide, token_round_trip_int_ids "c1" 1 2 (by decide)⟩
